import Mathlib

/-!
Verification of the configuration surface and core data layout of the octree
decoupoly rasterizer.  The structural constants are embedded from
src/octree_decoupoly_rasterizer/cuda/config.h; the fragments of the rasterizer
that those constants parameterize (per-leaf buffer layout, tile partition,
bounded octree descent, prefetch capacity check, buffer alignment) are modelled
from the specification, since the kernel sources are not part of the supplied
material.
-/

/-- Tile width in pixels, from config.h. -/
def BLOCK_X : Nat := 8

/-- Tile height in pixels, from config.h. -/
def BLOCK_Y : Nat := 8

/-- Color channel count, from config.h. -/
def CHANNELS : Nat := 3

/-- Memory alignment in bytes, from config.h. -/
def MEM_ALIGNMENT : Nat := 256

/-- Maximum octree depth, from config.h. -/
def MAX_TREE_DEPTH : Nat := 10

/-- Prefetch staging buffer depth, from config.h. -/
def PREFETCH_BUFFER_SIZE : Nat := 8

/-- Per-pixel sample batch dimension, from config.h. -/
def SAMPLE_DIM : Nat := 8

/-- Polynomial degree K of the decoupoly model, from config.h. -/
def DECOUPOLY_DEGREE : Nat := 8

/-- Rank R (number of basis terms) of the decoupoly model, from config.h. -/
def DECOUPOLY_RANK : Nat := 16

/-- Length of the per-leaf basis-vector block, defined in config.h as
DECOUPOLY_RANK * 3. -/
def DECOUPOLY_V_SIZE : Nat := DECOUPOLY_RANK * 3

/-- Length of the per-leaf coefficient block, defined in config.h as
DECOUPOLY_RANK * DECOUPOLY_DEGREE. -/
def DECOUPOLY_G_SIZE : Nat := DECOUPOLY_RANK * DECOUPOLY_DEGREE

/-- Whether the GRAD_GLOBAL strategy macro is defined in config.h
(it is commented out there). -/
def GRAD_GLOBAL_defined : Bool := false

/-- Whether the GRAD_SHARED_TO_GLOBAL strategy macro is defined in config.h
(it is commented out there). -/
def GRAD_SHARED_TO_GLOBAL_defined : Bool := false

/-- Whether the GRAD_LOCAL_TO_GLOBAL strategy macro is defined in config.h
(it is the one active definition). -/
def GRAD_LOCAL_TO_GLOBAL_defined : Bool := true

/-- Whether the GRAD_LOCAL_REDUCED_TO_GLOBAL strategy macro is defined in
config.h (it is commented out there). -/
def GRAD_LOCAL_REDUCED_TO_GLOBAL_defined : Bool := false

/-- The compile-time state of the four gradient-merge strategy macros of
config.h, in source order. -/
def gradStrategyMacroFlags : List Bool :=
  [GRAD_GLOBAL_defined, GRAD_SHARED_TO_GLOBAL_defined,
   GRAD_LOCAL_TO_GLOBAL_defined, GRAD_LOCAL_REDUCED_TO_GLOBAL_defined]

/-- The gradient-merge strategy macros selectable in config.h (lines 21-24):
one constructor per strategy macro appearing there. -/
inductive GradMergeStrategy where
  | gradGlobal
  | gradSharedToGlobal
  | gradLocalToGlobal
  | gradLocalReducedToGlobal
  deriving DecidableEq, Fintype

/-- The three-member gradient-merge strategy set named by the specification
configuration surface: accumulate-then-flush-to-global, direct global
accumulate, and none. -/
inductive SpecGradStrategy where
  | accumulateThenFlushToGlobal
  | directGlobalAccumulate
  | noSelection
  deriving DecidableEq, Fintype

/-- Per-leaf decoupoly parameters: R basis vectors of dimension 3 and an
R x K coefficient matrix (spec section 3). -/
structure DecoupolyParams where
  basis : Fin DECOUPOLY_RANK → ℚ × ℚ × ℚ
  coeffs : Fin DECOUPOLY_RANK → Fin DECOUPOLY_DEGREE → ℚ

/-- Component j of a 3-vector stored as a nested pair. -/
def tripleGet (t : ℚ × ℚ × ℚ) (j : Nat) : ℚ :=
  if j = 0 then t.1 else if j = 1 then t.2.1 else t.2.2

/-- Entry i of the contiguous basis-vector block: component i % 3 of basis
vector i / 3. -/
def basisAt (ps : DecoupolyParams) (i : Fin DECOUPOLY_V_SIZE) : ℚ :=
  tripleGet
    (ps.basis ⟨i.val / 3, by
      have h := i.isLt
      unfold DECOUPOLY_V_SIZE DECOUPOLY_RANK at h ⊢
      omega⟩)
    (i.val % 3)

/-- Entry i of the contiguous coefficient block: coefficient i % K of term
i / K. -/
def coeffAt (ps : DecoupolyParams) (i : Fin DECOUPOLY_G_SIZE) : ℚ :=
  ps.coeffs
    ⟨i.val / DECOUPOLY_DEGREE, by
      have h := i.isLt
      unfold DECOUPOLY_G_SIZE DECOUPOLY_RANK DECOUPOLY_DEGREE at h ⊢
      omega⟩
    ⟨i.val % DECOUPOLY_DEGREE, by
      unfold DECOUPOLY_DEGREE
      omega⟩

/-- Modelled from the spec: the per-leaf contiguous parameter buffer, laid out
as the basis-vector block of length DECOUPOLY_V_SIZE followed by the
coefficient block of length DECOUPOLY_G_SIZE.  The kernel code reading this
layout is not part of the supplied sources. -/
def leafParamBuffer (ps : DecoupolyParams) : List ℚ :=
  (List.finRange DECOUPOLY_V_SIZE).map (basisAt ps) ++
    (List.finRange DECOUPOLY_G_SIZE).map (coeffAt ps)

/-- Per-leaf appearance descriptor: CHANNELS color channels (spec section 3). -/
structure AppearanceParams where
  channel : Fin CHANNELS → ℚ

/-- The flattened appearance descriptor of a leaf. -/
def appearanceBuffer (ap : AppearanceParams) : List ℚ :=
  (List.finRange CHANNELS).map ap.channel

/-- One pixel of the forward output image: CHANNELS color channels and a
depth (spec section 6). -/
structure PixelOut where
  color : Fin CHANNELS → ℚ
  depth : ℚ

/-- The color channels of one output pixel as a list. -/
def pixelColorList (o : PixelOut) : List ℚ :=
  (List.finRange CHANNELS).map o.color

/-- Modelled from the spec: the image is partitioned into fixed-size
BLOCK_X x BLOCK_Y tiles; this is the tile owning pixel (x, y). -/
def tileOf (x y : Nat) : Nat × Nat := (x / BLOCK_X, y / BLOCK_Y)

/-- A 3D query point with rational coordinates. -/
structure Pt where
  x : ℚ
  y : ℚ
  z : ℚ

/-- An axis-aligned cubic octree cell, given by its center and half-size. -/
structure Cell where
  cx : ℚ
  cy : ℚ
  cz : ℚ
  half : ℚ

/-- A child slot of an internal octree node: either the arena index of an
internal child or a leaf reference. -/
inductive ChildRef where
  | internal (idx : Nat)
  | leafRef (id : Nat)

/-- Modelled from the spec: an arena (index-based) octree, each internal node
holding 8 child slots addressed by a 3-bit octant code.  The traversal code is
not part of the supplied sources. -/
structure OctreeArena where
  nodes : List (Fin 8 → ChildRef)

/-- The 3-bit child octant code of a point relative to a cell center: one bit
per axis from the sign of the axis offset (spec section 4.1). -/
def octantOf (c : Cell) (p : Pt) : Fin 8 :=
  ⟨((if c.cx ≤ p.x then 4 else 0) + (if c.cy ≤ p.y then 2 else 0) +
      (if c.cz ≤ p.z then 1 else 0)) % 8,
    Nat.mod_lt _ (by norm_num)⟩

/-- The sub-cell of a cell selected by an octant code. -/
def childCell (c : Cell) (o : Fin 8) : Cell :=
  { cx := if o.val / 4 % 2 = 1 then c.cx + c.half / 2 else c.cx - c.half / 2
    cy := if o.val / 2 % 2 = 1 then c.cy + c.half / 2 else c.cy - c.half / 2
    cz := if o.val % 2 = 1 then c.cz + c.half / 2 else c.cz - c.half / 2
    half := c.half / 2 }

/-- Modelled from the spec: iterative bounded descent with an explicit depth
counter over the index-based arena (spec sections 4.1 and 9).  Returns the
leaf reference found, if any, together with the number of levels descended;
the first argument is the remaining depth budget, so descent beyond the
budget terminates with no leaf. -/
def descendLoop (arena : OctreeArena) : Nat → Nat → Cell → Pt → Option Nat × Nat
  | 0, _, _, _ => (none, 0)
  | fuel + 1, nodeIdx, cell, p =>
    match arena.nodes.get? nodeIdx with
    | none => (none, 0)
    | some children =>
      match children (octantOf cell p) with
      | ChildRef.leafRef id => (some id, 1)
      | ChildRef.internal next =>
        let r := descendLoop arena fuel next (childCell cell (octantOf cell p)) p
        (r.1, r.2 + 1)

/-- The root cell: the unit cube centered at (1/2, 1/2, 1/2). -/
def rootCell : Cell := { cx := 1/2, cy := 1/2, cz := 1/2, half := 1/2 }

/-- Whether a point lies inside the root bounding volume. -/
def inRoot (p : Pt) : Bool :=
  decide (0 ≤ p.x) && decide (p.x < 1) && decide (0 ≤ p.y) && decide (p.y < 1) &&
    decide (0 ≤ p.z) && decide (p.z < 1)

/-- Modelled from the spec: full traversal of a query point — points outside
the root volume yield no leaf, otherwise descent starts at the root node with
depth budget MAX_TREE_DEPTH. -/
def traverse (arena : OctreeArena) (p : Pt) : Option Nat :=
  if inRoot p then (descendLoop arena MAX_TREE_DEPTH 0 rootCell p).1 else none

/-- The number of levels of descent performed when traversing a query point. -/
def traversalDepth (arena : OctreeArena) (p : Pt) : Nat :=
  if inRoot p then (descendLoop arena MAX_TREE_DEPTH 0 rootCell p).2 else 0

/-- Modelled from the spec: the pre-pass capacity precondition — a tile
working set fits the on-chip staging scratch iff it does not exceed the
configured prefetch buffer depth (spec sections 4.3 and 7). -/
def prefetchCapacityOk (workingSetSize : Nat) : Bool :=
  workingSetSize ≤ PREFETCH_BUFFER_SIZE

/-- Modelled from the spec: rounding a buffer size or offset up to the next
multiple of MEM_ALIGNMENT; the allocation code applying it is not part of the
supplied sources. -/
def alignUp (n : Nat) : Nat :=
  (n + MEM_ALIGNMENT - 1) / MEM_ALIGNMENT * MEM_ALIGNMENT

/-- The depth count of descendLoop never exceeds the depth budget. -/
theorem descendLoop_depth_le (arena : OctreeArena) :
    ∀ (fuel nodeIdx : Nat) (cell : Cell) (p : Pt),
      (descendLoop arena fuel nodeIdx cell p).2 ≤ fuel := by
  intro fuel
  induction fuel with
  | zero =>
    intro nodeIdx cell p
    simp [descendLoop]
  | succ n ih =>
    intro nodeIdx cell p
    simp only [descendLoop]
    cases h : arena.nodes.get? nodeIdx with
    | none => simp
    | some children =>
      cases hc : children (octantOf cell p) with
      | leafRef id => simp [hc]
      | internal next =>
        have hrec := ih next (childCell cell (octantOf cell p)) p
        simp [hc]
        omega

/-- C1: the basis-vector block has length R·3 and the coefficient block has
length R·K; with R = 16 and K = 8 these are 48 and 128, and every leaf's
contiguous parameter buffer has the same total length R·3 + R·K. -/
theorem decoupoly_param_block_sizes :
    DECOUPOLY_V_SIZE = DECOUPOLY_RANK * 3 ∧
    DECOUPOLY_G_SIZE = DECOUPOLY_RANK * DECOUPOLY_DEGREE ∧
    DECOUPOLY_V_SIZE = 48 ∧ DECOUPOLY_G_SIZE = 128 ∧
    ∀ ps : DecoupolyParams,
      (leafParamBuffer ps).length = DECOUPOLY_V_SIZE + DECOUPOLY_G_SIZE := by
  refine ⟨rfl, rfl, rfl, rfl, fun ps => ?_⟩
  simp [leafParamBuffer]

/-- C2: exactly one gradient-merge strategy macro is defined in config.h, and
it is GRAD_LOCAL_TO_GLOBAL, the tile-local accumulate-then-single-merge
strategy preferred by the spec. -/
theorem grad_strategy_unique_and_local :
    gradStrategyMacroFlags.count true = 1 ∧ GRAD_LOCAL_TO_GLOBAL_defined = true := by
  decide

/-- C3 counterexample: the set of selectable gradient-merge configurations
(the four strategy macros of config.h, plus the state with no macro defined)
has five members, not the three members the claim asserts. -/
theorem grad_strategy_set_not_three :
    Fintype.card (Option GradMergeStrategy) = 5 ∧
      ¬ Fintype.card (Option GradMergeStrategy) = 3 := by
  decide

/-- C3 amended: config.h exposes four selectable strategy macros —
GRAD_GLOBAL, GRAD_SHARED_TO_GLOBAL, GRAD_LOCAL_TO_GLOBAL and
GRAD_LOCAL_REDUCED_TO_GLOBAL — so with the no-macro state the selectable set
has five configurations, two more macro variants than the spec's three-member
set; the spec's three strategies count matches neither the macros alone nor
the macros with the none state. -/
theorem grad_strategy_set_card :
    Fintype.card GradMergeStrategy = 4 ∧
      Fintype.card (Option GradMergeStrategy) = 5 ∧
      Fintype.card SpecGradStrategy = 3 := by
  decide

/-- C4: traversal of any query point over any arena descends at most
MAX_TREE_DEPTH = 10 levels; the loop carries an explicit depth budget, so
there is no unbounded descent even on a malformed (cyclic) arena. -/
theorem traversal_depth_capped (arena : OctreeArena) (p : Pt) :
    traversalDepth arena p ≤ MAX_TREE_DEPTH ∧ MAX_TREE_DEPTH = 10 := by
  constructor
  · unfold traversalDepth
    split
    · exact descendLoop_depth_le arena MAX_TREE_DEPTH 0 rootCell p
    · exact Nat.zero_le _
  · rfl

/-- C5: tiles are BLOCK_X x BLOCK_Y = 8 x 8 pixels: pixel (x, y) belongs to
tile (tx, ty) exactly when it lies in the 8-wide, 8-tall block of that tile. -/
theorem tile_size_eight_by_eight :
    BLOCK_X = 8 ∧ BLOCK_Y = 8 ∧
    ∀ x y tx ty : Nat, tileOf x y = (tx, ty) ↔
      (BLOCK_X * tx ≤ x ∧ x < BLOCK_X * (tx + 1) ∧
        BLOCK_Y * ty ≤ y ∧ y < BLOCK_Y * (ty + 1)) := by
  refine ⟨rfl, rfl, fun x y tx ty => ?_⟩
  simp only [tileOf, BLOCK_X, BLOCK_Y, Prod.mk.injEq]
  omega

/-- C6: the decoupoly shape constants are fixed at rank R = 16 and degree
K = 8 in config.h. -/
theorem decoupoly_rank_degree_fixed :
    DECOUPOLY_RANK = 16 ∧ DECOUPOLY_DEGREE = 8 := ⟨rfl, rfl⟩

/-- C7: the channel count is fixed at CHANNELS = 3, and every leaf appearance
descriptor and every forward output pixel carries exactly CHANNELS color
channels. -/
theorem channel_count_three :
    CHANNELS = 3 ∧
    (∀ ap : AppearanceParams, (appearanceBuffer ap).length = CHANNELS) ∧
    (∀ o : PixelOut, (pixelColorList o).length = CHANNELS) := by
  refine ⟨rfl, fun ap => ?_, fun o => ?_⟩ <;>
    simp [appearanceBuffer, pixelColorList]

/-- C8: the prefetch staging depth is fixed at PREFETCH_BUFFER_SIZE = 8, and
the pre-pass capacity precondition accepts a working set exactly when it does
not exceed that bound. -/
theorem prefetch_buffer_depth_eight :
    PREFETCH_BUFFER_SIZE = 8 ∧
    ∀ w : Nat, prefetchCapacityOk w = true ↔ w ≤ PREFETCH_BUFFER_SIZE := by
  refine ⟨rfl, fun w => ?_⟩
  simp [prefetchCapacityOk]

/-- C9: the per-pixel sample batch dimension is the fixed structural constant
SAMPLE_DIM = 8. -/
theorem sample_dim_eight : SAMPLE_DIM = 8 := rfl

/-- C10: the memory alignment constant is MEM_ALIGNMENT = 256, and aligning
any buffer size rounds it up to the next multiple of 256, never past it. -/
theorem mem_alignment_256 :
    MEM_ALIGNMENT = 256 ∧
    ∀ n : Nat, alignUp n % MEM_ALIGNMENT = 0 ∧ n ≤ alignUp n ∧
      alignUp n < n + MEM_ALIGNMENT := by
  refine ⟨rfl, fun n => ?_⟩
  unfold alignUp MEM_ALIGNMENT
  omega
